import Mathlib

/-!
Shallow embedding of the cc_rdm pipeline-orchestration module
(src/cc_rdm/__init__.py) and proofs of its specified properties.

The module drives a three-stage digital-preservation pipeline:
package a directory into a bag (BagOperation), transfer the bag's files
between Globus endpoints (TransferOperation), and trigger ingestion into
Archivematica (IngestOperation), all over a shared Configuration object.

Remote collaborators (the Globus authenticator, the Globus transfer API
client and the packaging capability) are modelled as oracle functions
passed in as parameters; every invocation of a remote capability is
recorded in an explicit call trace so that "performs exactly these calls
in this order" and "raises before any remote call" are provable
statements.  Python exceptions are modelled by an error type returned
through Except; Python attribute lookup on Configuration (which in the
source can fail with AttributeError for a name the constructor never
sets) is modelled by an explicit attribute table.
-/

namespace CcRdm

/-- The exceptions the module can surface: the module's own
ConfigException, TransferException and IngestException classes, Python's
AttributeError for a missing attribute, and errors propagated unchanged
from a remote service. -/
inductive PyError where
  | configException (msg : String)
  | transferException (msg : String)
  | ingestException (msg : String)
  | attributeError (attr : String)
  | serviceError (msg : String)
deriving DecidableEq, Repr

/-- The authenticated Globus transfer API client handle
(globusonline.transfer.api_client.TransferAPIClient), built from the
username and token of an access-token exchange. -/
structure ApiClient where
  username : String
  goauth : String
deriving DecidableEq, Repr

/-- Result of get_access_token: an identity and a bearer token. -/
structure AuthTok where
  username : String
  token : String
deriving DecidableEq, Repr

/-- The authenticator capability (get_access_token): exchanges a
username and password for a token, or fails with a service error. -/
def Authenticator : Type := String → String → Except String AuthTok

/-- One source/destination pair added to a transfer descriptor by
Transfer.add_item. -/
structure TransferItem where
  source_path : String
  destination_path : String
deriving DecidableEq, Repr

/-- The Globus transfer descriptor
(globusonline.transfer.api_client.Transfer): a submission id, the two
endpoints, and the ordered list of items to move. -/
structure Transfer where
  submission_id : String
  src : Option String
  dest : Option String
  items : List TransferItem
deriving DecidableEq, Repr

/-- Transfer.add_item: appends one source/destination pair to the
descriptor. -/
def Transfer.add_item (t : Transfer) (source_path destination_path : String) :
    Transfer :=
  { t with items := t.items ++ [{ source_path := source_path,
                                  destination_path := destination_path }] }

/-- One remote call made by the module, recorded in call traces. -/
inductive ExtCall where
  | getAccessToken (username password : String)
  | endpointAutoactivate (endpoint : Option String)
  | transferSubmissionId
  | transferSubmit (t : Transfer)
  | taskQuery (task_id fields : String)
deriving DecidableEq, Repr

/-- Calls addressed to the Globus transfer service (everything except
the authenticator's token exchange). -/
def isTransferServiceCall : ExtCall → Bool
  | ExtCall.getAccessToken _ _ => false
  | _ => true

/-- Configuration (source lines 13-89): holds endpoints, directories and
credentials for the two remote services, plus the lazily created and
cached API client handle.  String-valued settings are Option String with
none for Python None; needs_preservation is a plain flag; api is the
cached client, none until first successful get_api. -/
structure Configuration where
  src_endpoint : Option String
  dip_endpoint : Option String
  aip_endpoint : Option String
  proc_dir : Option String
  ingest_dir : Option String
  aip_dir : Option String
  dip_dir : Option String
  globus_user : Option String
  globus_pass : Option String
  needs_preservation : Bool
  a_rest_url : Option String
  a_user : Option String
  a_api_key : Option String
  api : Option ApiClient
deriving DecidableEq, Repr

/-- Configuration.__init__ (source lines 19-52): stores each parameter
on the instance, in the source's parameter order, and initialises the
cached api handle to None. -/
def Configuration.init (src_endpoint dip_endpoint aip_endpoint proc_dir
    ingest_dir aip_dir dip_dir globus_user globus_pass a_rest_url a_user
    a_api_key : Option String) (needs_preservation : Bool) : Configuration :=
  { src_endpoint := src_endpoint
    dip_endpoint := dip_endpoint
    aip_endpoint := aip_endpoint
    proc_dir := proc_dir
    ingest_dir := ingest_dir
    aip_dir := aip_dir
    dip_dir := dip_dir
    globus_user := globus_user
    globus_pass := globus_pass
    needs_preservation := needs_preservation
    a_rest_url := a_rest_url
    a_user := a_user
    a_api_key := a_api_key
    api := none }

/-- Python attribute lookup on a Configuration, for the dynamic accesses
start_transfer performs while defaulting its endpoint arguments.  The
table enumerates exactly the string-valued attributes the constructor
sets (needs_preservation, a Bool, and api, the client handle, are never
looked up dynamically in the source); any other name fails with
AttributeError, as in Python.  In particular the source's read of
self.config.proc_endpoint (line 155) hits the error branch: the
constructor defines proc_dir, never proc_endpoint. -/
def Configuration.getattr (c : Configuration) (name : String) :
    Except PyError (Option String) :=
  match name with
  | "src_endpoint" => Except.ok c.src_endpoint
  | "dip_endpoint" => Except.ok c.dip_endpoint
  | "aip_endpoint" => Except.ok c.aip_endpoint
  | "proc_dir" => Except.ok c.proc_dir
  | "ingest_dir" => Except.ok c.ingest_dir
  | "aip_dir" => Except.ok c.aip_dir
  | "dip_dir" => Except.ok c.dip_dir
  | "globus_user" => Except.ok c.globus_user
  | "globus_pass" => Except.ok c.globus_pass
  | "a_rest_url" => Except.ok c.a_rest_url
  | "a_user" => Except.ok c.a_user
  | "a_api_key" => Except.ok c.a_api_key
  | _ => Except.error (PyError.attributeError name)

/-- Configuration.get_api (source lines 54-75).  If a client is already
cached it is returned at once; otherwise a missing username or password
raises ConfigException before any remote call, and with both present the
credentials are exchanged for a token (one authenticator call, recorded
in the trace) and the resulting client is cached on the configuration.
Returns the result together with the updated configuration and the trace
of remote calls made. -/
def Configuration.get_api (auth : Authenticator) (c : Configuration) :
    Except PyError (ApiClient × Configuration) × List ExtCall :=
  match c.api with
  | some a => (Except.ok (a, c), [])
  | none =>
    match c.globus_user with
    | none => (Except.error (PyError.configException "No Globus username set."), [])
    | some u =>
      match c.globus_pass with
      | none => (Except.error (PyError.configException "No Globus password set."), [])
      | some p =>
        match auth u p with
        | Except.error e =>
            (Except.error (PyError.serviceError e), [ExtCall.getAccessToken u p])
        | Except.ok tok =>
            let a : ApiClient := { username := tok.username, goauth := tok.token }
            (Except.ok (a, { c with api := some a }), [ExtCall.getAccessToken u p])

/-- Configuration.is_complete (source lines 77-89): false when either
Globus credential is unset, true otherwise. -/
def Configuration.is_complete (c : Configuration) : Bool :=
  if c.globus_user = none ∨ c.globus_pass = none then false else true

/-- os.path.join for two POSIX path segments, as used at source line 172:
an absolute second segment replaces the first, otherwise the segments
are joined with a single separator. -/
def os_path_join (a b : String) : String :=
  if b.startsWith "/" then b
  else if a = "" then b
  else if a.endsWith "/" then a ++ b
  else a ++ "/" ++ b

/-- Bag metadata: a key-value mapping, modelled as an association list. -/
def Metadata : Type := List (String × String)

/-- A bag produced by the external packaging capability (bagit): the
directory it packaged, the metadata it received, and its validity
verdict as reported by Bag.is_valid. -/
structure Bag where
  dir : String
  metadata : List (String × String)
  valid : Bool
deriving DecidableEq, Repr

/-- Bag.is_valid: the packaging capability's integrity verdict for this
bag. -/
def Bag.is_valid (b : Bag) : Bool := b.valid

/-- The external packaging capability (bagit.make_bag): produces a Bag
from a directory and a metadata mapping. -/
def Packager : Type := String → List (String × String) → Bag

/-- BagOperation (source lines 91-128): a directory, a metadata mapping
and the operation's current bag, initially absent. -/
structure BagOperation where
  dir : String
  metadata : List (String × String)
  bag : Option Bag
deriving DecidableEq, Repr

/-- BagOperation.__init__ (source lines 95-106).  The source stores the
dir and bag parameters but assigns self.metadata = \x7b\x7d (line 105),
so the metadata argument is discarded and the stored mapping is always
empty. -/
def BagOperation.init (dir : String) (metadata : List (String × String))
    (bag : Option Bag) : BagOperation :=
  { dir := dir, metadata := [], bag := bag }

/-- BagOperation.make_bag (source lines 108-116): calls the packaging
capability on the stored directory and stored metadata, stores the
resulting bag as the operation's current bag, and returns it. -/
def BagOperation.make_bag (pk : Packager) (op : BagOperation) :
    Bag × BagOperation :=
  let b := pk op.dir op.metadata
  (b, { op with bag := some b })

/-- BagOperation.is_valid (source lines 118-128): false when no bag has
been packaged yet, otherwise the bag's own verdict. -/
def BagOperation.is_valid (op : BagOperation) : Bool :=
  match op.bag with
  | none => false
  | some b => b.is_valid

/-- The Globus transfer service, as seen through the methods of the
authenticated client handle: endpoint activation, submission-id
issuance, descriptor submission (returning data with a task_id field)
and task query (returning the requested field).  Each can fail with a
service error, which the module propagates unchanged. -/
structure GlobusApi where
  endpoint_autoactivate : ApiClient → Option String → Except String Unit
  transfer_submission_id : ApiClient → Except String String
  transfer : ApiClient → Transfer → Except String String
  task : ApiClient → String → String → Except String String

/-- TransferOperation (source lines 131-192): a Configuration reference,
the source and destination directories, the pending file list (None or a
list, matching the source's file_list == None check) and the Globus task
id, absent until a submission succeeds. -/
structure TransferOperation where
  config : Option Configuration
  src_dir : String
  dest_dir : String
  file_list : Option (List String)
  go_task_id : Option String
deriving DecidableEq, Repr

/-- TransferOperation.__init__ (source lines 135-140): stores the
parameters and sets go_task_id to None. -/
def TransferOperation.init (config : Option Configuration)
    (src_dir dest_dir : String) (file_list : Option (List String)) :
    TransferOperation :=
  { config := config, src_dir := src_dir, dest_dir := dest_dir,
    file_list := file_list, go_task_id := none }

/-- The descriptor built at source lines 169-172: Transfer(submission_id,
src, dest) followed by one add_item per pending file, in file-list
order, pairing src_dir/file with dest_dir/file. -/
def buildTransfer (submission_id : String) (src dest : Option String)
    (src_dir dest_dir : String) (files : List String) : Transfer :=
  files.foldl
    (fun t file =>
      t.add_item (os_path_join src_dir file) (os_path_join dest_dir file))
    { submission_id := submission_id, src := src, dest := dest, items := [] }

/-- TransferOperation.start_transfer (source lines 145-176), returning
the outcome, the operation state after the call (reflecting every
mutation made up to a failure point) and the trace of remote calls.
Order of events, as in the source: default a None src argument from
config.src_endpoint and a None dest argument from config.proc_endpoint
(dynamic attribute lookups; an absent config is Python None, whose
attribute lookup also fails); raise TransferException if the file list
is None or empty; obtain the API client via config.get_api (which may
call the authenticator and caches the client on the configuration);
activate both endpoints; request a submission id; build the descriptor
over the pending files; submit it; finally record the returned task id. -/
def TransferOperation.start_transfer (auth : Authenticator) (g : GlobusApi)
    (op : TransferOperation) (src dest : Option String) :
    Except PyError Unit × TransferOperation × List ExtCall :=
  match (match src with
         | some s => Except.ok (some s)
         | none =>
           match op.config with
           | none => Except.error (PyError.attributeError "src_endpoint")
           | some c => c.getattr "src_endpoint") with
  | Except.error e => (Except.error e, op, [])
  | Except.ok src1 =>
  match (match dest with
         | some d => Except.ok (some d)
         | none =>
           match op.config with
           | none => Except.error (PyError.attributeError "proc_endpoint")
           | some c => c.getattr "proc_endpoint") with
  | Except.error e => (Except.error e, op, [])
  | Except.ok dest1 =>
  match op.file_list with
  | none =>
      (Except.error (PyError.transferException "No files specified for transfer"),
       op, [])
  | some files =>
  if files.isEmpty then
    (Except.error (PyError.transferException "No files specified for transfer"),
     op, [])
  else
  match op.config with
  | none => (Except.error (PyError.attributeError "get_api"), op, [])
  | some c =>
  match c.get_api auth with
  | (Except.error e, tr) => (Except.error e, op, tr)
  | (Except.ok (a, c1), tr) =>
  match g.endpoint_autoactivate a src1 with
  | Except.error m =>
      (Except.error (PyError.serviceError m), { op with config := some c1 },
       tr ++ [ExtCall.endpointAutoactivate src1])
  | Except.ok _ =>
  match g.endpoint_autoactivate a dest1 with
  | Except.error m =>
      (Except.error (PyError.serviceError m), { op with config := some c1 },
       tr ++ [ExtCall.endpointAutoactivate src1,
              ExtCall.endpointAutoactivate dest1])
  | Except.ok _ =>
  match g.transfer_submission_id a with
  | Except.error m =>
      (Except.error (PyError.serviceError m), { op with config := some c1 },
       tr ++ [ExtCall.endpointAutoactivate src1,
              ExtCall.endpointAutoactivate dest1,
              ExtCall.transferSubmissionId])
  | Except.ok submission_id =>
  match g.transfer a
      (buildTransfer submission_id src1 dest1 op.src_dir op.dest_dir files) with
  | Except.error m =>
      (Except.error (PyError.serviceError m), { op with config := some c1 },
       tr ++ [ExtCall.endpointAutoactivate src1,
              ExtCall.endpointAutoactivate dest1,
              ExtCall.transferSubmissionId,
              ExtCall.transferSubmit (buildTransfer submission_id src1 dest1
                op.src_dir op.dest_dir files)])
  | Except.ok task_id =>
      (Except.ok (),
       { op with config := some c1, go_task_id := some task_id },
       tr ++ [ExtCall.endpointAutoactivate src1,
              ExtCall.endpointAutoactivate dest1,
              ExtCall.transferSubmissionId,
              ExtCall.transferSubmit (buildTransfer submission_id src1 dest1
                op.src_dir op.dest_dir files)])

/-- TransferOperation.transfer_status (source lines 178-192): raise
TransferException when no task id is set, before any remote call;
otherwise obtain the API client and query the task for its status field
only, returning that field verbatim. -/
def TransferOperation.transfer_status (auth : Authenticator) (g : GlobusApi)
    (op : TransferOperation) :
    Except PyError String × TransferOperation × List ExtCall :=
  match op.go_task_id with
  | none =>
      (Except.error (PyError.transferException "No task information available."),
       op, [])
  | some task_id =>
  match op.config with
  | none => (Except.error (PyError.attributeError "get_api"), op, [])
  | some c =>
  match c.get_api auth with
  | (Except.error e, tr) => (Except.error e, op, tr)
  | (Except.ok (a, c1), tr) =>
  let op1 : TransferOperation := { op with config := some c1 }
  match g.task a task_id "status" with
  | Except.error m =>
      (Except.error (PyError.serviceError m), op1,
       tr ++ [ExtCall.taskQuery task_id "status"])
  | Except.ok status =>
      (Except.ok status, op1, tr ++ [ExtCall.taskQuery task_id "status"])

/-- IngestOperation (source lines 195-244): a Configuration reference
and the name of the bag to ingest. -/
structure IngestOperation where
  config : Option Configuration
  bagname : Option String
deriving DecidableEq, Repr

/-- IngestOperation.can_ingest (source lines 210-231): false when the
configuration is absent, when its proc_dir, ingest_dir or dip_dir is
unset, when preservation is required but aip_dir is unset, or when the
bag name is unset; true otherwise.  A pure predicate on local state. -/
def IngestOperation.can_ingest (op : IngestOperation) : Bool :=
  match op.config with
  | none => false
  | some c =>
    if c.proc_dir = none then false
    else if c.ingest_dir = none then false
    else if c.dip_dir = none then false
    else if c.needs_preservation ∧ c.aip_dir = none then false
    else if op.bagname = none then false
    else true

/-- One call to the ingest service's approve-transfer endpoint: the
stored credentials plus the bag directory and transfer type. -/
inductive IngestSvcCall where
  | approve (username api_key : Option String) (directory ttype : String)
deriving DecidableEq, Repr

/-- The ingest service's approve-transfer capability: takes the
credentials, the directory (bag name) and the transfer type, and returns
the raw service response or a service error. -/
structure IngestService where
  approve : Option String → Option String → String → String →
    Except String String

/-- Modelled from the spec: the repository's revised IngestCoordinator
(the second, authoritative revision of the module, which is not among
the provided source files; only the superseded revision's
IngestOperation is).  Per the spec it holds a Configuration reference, a
bag name and a free-form transfer type tag, with bagname and type
suppliable at construction or at call time. -/
structure IngestCoordinator where
  config : Option Configuration
  bagname : Option String
  ttype : String
deriving DecidableEq, Repr

/-- Modelled from the spec: canIngest of the revised IngestCoordinator
is true iff a Configuration and a bag name are both present; a pure
predicate that consults no remote state. -/
def IngestCoordinator.canIngest (ic : IngestCoordinator) : Bool :=
  ic.config.isSome && ic.bagname.isSome

/-- Modelled from the spec: ingest of the revised IngestCoordinator.
Call-time bagname and type arguments, when supplied, override the stored
values and become the new stored values; the precondition is then
re-evaluated: with no Configuration or no bag name it fails with
IngestError, otherwise it issues one approval call to the ingest service
keyed by bag name and transfer type with the stored credentials, and
returns the raw response.  The guard of the match is exactly canIngest
of the updated state: both fields present.  Returns the outcome, the
updated coordinator and the trace of ingest-service calls. -/
def IngestCoordinator.ingest (svc : IngestService) (ic : IngestCoordinator)
    (bagname : Option String) (ttype : Option String) :
    Except PyError String × IngestCoordinator × List IngestSvcCall :=
  let ic1 : IngestCoordinator :=
    { ic with
      bagname := match bagname with
                 | some b => some b
                 | none => ic.bagname,
      ttype := match ttype with
               | some t => t
               | none => ic.ttype }
  match ic1.config, ic1.bagname with
  | some c, some b =>
    (match svc.approve c.a_user c.a_api_key b ic1.ttype with
     | Except.error m => Except.error (PyError.serviceError m)
     | Except.ok resp => Except.ok resp,
     ic1, [IngestSvcCall.approve c.a_user c.a_api_key b ic1.ttype])
  | _, _ =>
    (Except.error (PyError.ingestException "not enough information to ingest bag"),
     ic1, [])

/-! Concrete collaborators and objects used to exercise the theorems on
closed inputs. -/

/-- An authenticator that always succeeds with a fixed token. -/
def authFix : Authenticator :=
  fun u _ => Except.ok { username := u, token := "tok-1" }

/-- An authenticator that always fails. -/
def authNone : Authenticator :=
  fun _ _ => Except.error "authenticator unavailable"

/-- A concrete client handle. -/
def apiFix : ApiClient := { username := "u1", goauth := "tok-1" }

/-- A transfer service on which every call succeeds. -/
def gFix : GlobusApi :=
  { endpoint_autoactivate := fun _ _ => Except.ok ()
    transfer_submission_id := fun _ => Except.ok "sub-1"
    transfer := fun _ _ => Except.ok "task-1"
    task := fun _ _ _ => Except.ok "ACTIVE" }

/-- A transfer service on which endpoint activation fails. -/
def gFailActivate : GlobusApi :=
  { endpoint_autoactivate := fun _ _ => Except.error "endpoint down"
    transfer_submission_id := fun _ => Except.ok "sub-1"
    transfer := fun _ _ => Except.ok "task-1"
    task := fun _ _ _ => Except.ok "ACTIVE" }

/-- A fully populated configuration (no cached client yet). -/
def cfgFix : Configuration :=
  Configuration.init (some "ep-src") none none (some "/proc") (some "/ingest")
    (some "/aip") (some "/dip") (some "gu") (some "gp") (some "http://a")
    (some "au") (some "ak") false

/-- The same configuration with the client handle already cached. -/
def cfgCached : Configuration := { cfgFix with api := some apiFix }

/-- An ingest service that approves every request. -/
def svcFix : IngestService :=
  { approve := fun _ _ _ _ => Except.ok "approved" }

/-- An ingest coordinator over cfgFix with no bag name yet. -/
def icFix : IngestCoordinator :=
  { config := some cfgFix, bagname := none, ttype := "unzipped bag" }

/-- A configuration whose proc_dir is unset but whose other ingest
directories are set. -/
def cfg5 : Configuration :=
  Configuration.init none none none none (some "/ingest") (some "/aip")
    (some "/dip") none none none none none false

/-- An ingest operation with a configuration and a bag name present but
config.proc_dir unset. -/
def op5 : IngestOperation := { config := some cfg5, bagname := some "bag-1" }

/-- A transfer operation over cfgCached with two pending files. -/
def opFix : TransferOperation :=
  TransferOperation.init (some cfgCached) "/" "/" (some ["a.txt", "b.txt"])

/-- A transfer operation over cfgCached with one pending file. -/
def opFailFix : TransferOperation :=
  TransferOperation.init (some cfgCached) "/" "/" (some ["a.txt"])

/-- A transfer operation over cfgCached with a task id recorded. -/
def opStatFix : TransferOperation :=
  { TransferOperation.init (some cfgCached) "/" "/" (some ["a.txt"]) with
    go_task_id := some "task-9" }

/-! Helper lemmas about the embedded operations. -/

/-- get_api never calls the transfer service: its trace holds at most
the authenticator's token exchange. -/
theorem get_api_trace_no_service (auth : Authenticator) (c : Configuration) :
    ((c.get_api auth).2).filter isTransferServiceCall = [] := by
  obtain ⟨se, de, ae, pd, ig, ad, dd, gu, gp, np, ru, au, ak, api⟩ := c
  cases api with
  | some a => rfl
  | none =>
    cases gu with
    | none => rfl
    | some u =>
      cases gp with
      | none => rfl
      | some p =>
        cases hx : auth u p with
        | error e => simp [Configuration.get_api, hx, isTransferServiceCall]
        | ok tok => simp [Configuration.get_api, hx, isTransferServiceCall]

/-- When get_api returns a client, that client is cached on the returned
configuration. -/
theorem get_api_ok_api_some (auth : Authenticator) (c c1 : Configuration)
    (a : ApiClient) (tr : List ExtCall)
    (h : c.get_api auth = (Except.ok (a, c1), tr)) : c1.api = some a := by
  obtain ⟨se, de, ae, pd, ig, ad, dd, gu, gp, np, ru, au, ak, api⟩ := c
  cases api with
  | some a0 =>
    simp [Configuration.get_api] at h
    rw [← h.1.2]
    simp [h.1.1]
  | none =>
    cases gu with
    | none => simp [Configuration.get_api] at h
    | some u =>
      cases gp with
      | none => simp [Configuration.get_api] at h
      | some p =>
        cases hx : auth u p with
        | error e => simp [Configuration.get_api, hx] at h
        | ok tok =>
          simp [Configuration.get_api, hx] at h
          rw [← h.1.2]
          simp [← h.1.1]

/-- When a client is already cached, get_api returns it at once with no
remote call. -/
theorem get_api_cached (auth : Authenticator) (c : Configuration)
    (a : ApiClient) (h : c.api = some a) :
    c.get_api auth = (Except.ok (a, c), []) := by
  obtain ⟨se, de, ae, pd, ig, ad, dd, gu, gp, np, ru, au, ak, api⟩ := c
  simp only [Configuration.get_api]
  simp at h
  rw [h]

/-- A get_api failure is either the local ConfigException for a missing
credential or a service error propagated unchanged from the
authenticator. -/
theorem get_api_error_kinds (auth : Authenticator) (c : Configuration)
    (e : PyError) (tr : List ExtCall)
    (h : c.get_api auth = (Except.error e, tr)) :
    (∃ msg, e = PyError.configException msg) ∨
    (∃ u p m, e = PyError.serviceError m ∧ auth u p = Except.error m) := by
  obtain ⟨se, de, ae, pd, ig, ad, dd, gu, gp, np, ru, au, ak, api⟩ := c
  cases api with
  | some a0 => simp [Configuration.get_api] at h
  | none =>
    cases gu with
    | none =>
      left
      simp [Configuration.get_api] at h
      exact ⟨"No Globus username set.", h.1.symm⟩
    | some u =>
      cases gp with
      | none =>
        left
        simp [Configuration.get_api] at h
        exact ⟨"No Globus password set.", h.1.symm⟩
      | some p =>
        cases hx : auth u p with
        | error m =>
          right
          simp [Configuration.get_api, hx] at h
          exact ⟨u, p, m, h.1.symm, hx⟩
        | ok tok => simp [Configuration.get_api, hx] at h

/-- A failed attribute lookup on Configuration is an AttributeError for
the requested name. -/
theorem getattr_error_kind (c : Configuration) (name : String) (e : PyError)
    (h : c.getattr name = Except.error e) : e = PyError.attributeError name := by
  unfold Configuration.getattr at h
  split at h
  all_goals first
    | exact Except.noConfusion h
    | (injection h with h2; exact h2.symm)

/-- The add_item loop appends exactly one item per file, in order. -/
theorem foldl_add_item_items (src_dir dest_dir : String) (files : List String)
    (t : Transfer) :
    (files.foldl
      (fun t file =>
        t.add_item (os_path_join src_dir file) (os_path_join dest_dir file))
      t).items =
    t.items ++ files.map
      (fun file => { source_path := os_path_join src_dir file,
                     destination_path := os_path_join dest_dir file }) := by
  induction files generalizing t with
  | nil => simp
  | cons f fs ih =>
    rw [List.foldl_cons, ih]
    simp [Transfer.add_item]

/-- The descriptor built by start_transfer carries one move item per
pending file, in file-list order, pairing src_dir/file with
dest_dir/file. -/
theorem buildTransfer_items (submission_id : String) (src dest : Option String)
    (src_dir dest_dir : String) (files : List String) :
    (buildTransfer submission_id src dest src_dir dest_dir files).items =
    files.map (fun file => { source_path := os_path_join src_dir file,
                             destination_path := os_path_join dest_dir file }) := by
  unfold buildTransfer
  rw [foldl_add_item_items]
  rfl

/-- The configuration produced by a first successful get_api on cfgFix:
cfgFix with the freshly built client cached. -/
def cfgAuthed : Configuration :=
  { cfgFix with api := some { username := "gu", goauth := "tok-1" } }

/-! Claim theorems. -/

/-- C3: for every Configuration as constructed with at least one of the
two transfer credentials unset, the completeness predicate is_complete
returns false, and get_api raises ConfigException locally with an empty
remote-call trace, so the authenticator is never invoked. -/
theorem incomplete_config_no_network (auth : Authenticator)
    (se de ae pd ig ad dd gu gp ru au ak : Option String) (np : Bool)
    (h : gu = none ∨ gp = none) :
    (Configuration.init se de ae pd ig ad dd gu gp ru au ak np).is_complete
      = false ∧
    ∃ msg,
      (Configuration.init se de ae pd ig ad dd gu gp ru au ak np).get_api auth =
        (Except.error (PyError.configException msg), []) := by
  constructor
  · rcases h with h | h <;> subst h <;>
      simp [Configuration.init, Configuration.is_complete]
  · rcases gu with _ | u
    · exact ⟨"No Globus username set.",
        by simp [Configuration.init, Configuration.get_api]⟩
    · rcases h with h | h
      · exact absurd h (by simp)
      · subst h
        exact ⟨"No Globus password set.",
          by simp [Configuration.init, Configuration.get_api]⟩

/-- Closed instance of incomplete_config_no_network: a configuration
with a password but no username. -/
theorem incomplete_config_no_network_witness :
    (Configuration.init none none none none none none none none (some "gp")
        none none none false).is_complete = false ∧
    ∃ msg,
      (Configuration.init none none none none none none none none (some "gp")
          none none none false).get_api authNone =
        (Except.error (PyError.configException msg), []) :=
  incomplete_config_no_network authNone none none none none none none none
    none (some "gp") none none none false (Or.inl rfl)

/-- C9: after one successful get_api call, every subsequent call, under
any authenticator whatsoever, returns the same cached client handle and
the same configuration with an empty remote-call trace, and does so for
arbitrary values of the credential fields: the second call exchanges no
token and checks no credential. -/
theorem get_api_idempotent (auth auth2 : Authenticator) (c c1 : Configuration)
    (a : ApiClient) (tr : List ExtCall)
    (h : c.get_api auth = (Except.ok (a, c1), tr)) :
    c1.get_api auth2 = (Except.ok (a, c1), []) ∧
    ∀ gu gp : Option String,
      ({ c1 with globus_user := gu, globus_pass := gp }
          : Configuration).get_api auth2 =
        (Except.ok (a, { c1 with globus_user := gu, globus_pass := gp }), []) := by
  have hapi := get_api_ok_api_some auth c c1 a tr h
  refine ⟨get_api_cached auth2 c1 a hapi, ?_⟩
  intro gu gp
  exact get_api_cached auth2 _ a hapi

/-- Closed instance of get_api_idempotent: after the first exchange on
cfgFix, the repeat call under the always-failing authenticator still
returns the cached handle with no remote call. -/
theorem get_api_idempotent_witness :
    cfgAuthed.get_api authNone =
      (Except.ok ({ username := "gu", goauth := "tok-1" }, cfgAuthed), []) :=
  (get_api_idempotent authFix authNone cfgFix cfgAuthed
    { username := "gu", goauth := "tok-1" }
    [ExtCall.getAccessToken "gu" "gp"] rfl).1

/-- Looking up src_endpoint on a Configuration succeeds: the constructor
defines it. -/
theorem getattr_src_endpoint (c : Configuration) :
    c.getattr "src_endpoint" = Except.ok c.src_endpoint := rfl

/-- Looking up proc_endpoint on a Configuration fails with
AttributeError: the constructor defines proc_dir, never proc_endpoint. -/
theorem getattr_proc_endpoint (c : Configuration) :
    c.getattr "proc_endpoint" =
      Except.error (PyError.attributeError "proc_endpoint") := rfl

/-- C1: for every transfer operation with a non-empty file list, a
successful start_transfer performs exactly this sequence of
transfer-service calls, in order: activate the source endpoint, activate
the destination endpoint, request a fresh submission id, submit the
descriptor built over that submission id and both endpoints holding one
move item per pending file in file-list order (pairing src_dir/file with
dest_dir/file), and records the service-assigned task id in the
operation's state.  The trace before those four calls is the client
acquisition's, which contains no transfer-service call. -/
theorem start_transfer_sequence (auth : Authenticator) (g : GlobusApi)
    (op : TransferOperation) (c c1 : Configuration) (a : ApiClient)
    (s d : String) (files : List String) (tr : List ExtCall)
    (submission_id task_id : String)
    (hc : op.config = some c)
    (hf : op.file_list = some files)
    (hne : files ≠ [])
    (hapi : c.get_api auth = (Except.ok (a, c1), tr))
    (h1 : g.endpoint_autoactivate a (some s) = Except.ok ())
    (h2 : g.endpoint_autoactivate a (some d) = Except.ok ())
    (h3 : g.transfer_submission_id a = Except.ok submission_id)
    (h4 : g.transfer a (buildTransfer submission_id (some s) (some d)
            op.src_dir op.dest_dir files) = Except.ok task_id) :
    op.start_transfer auth g (some s) (some d) =
      (Except.ok (),
       { op with config := some c1, go_task_id := some task_id },
       tr ++ [ExtCall.endpointAutoactivate (some s),
              ExtCall.endpointAutoactivate (some d),
              ExtCall.transferSubmissionId,
              ExtCall.transferSubmit (buildTransfer submission_id (some s)
                (some d) op.src_dir op.dest_dir files)]) ∧
    tr.filter isTransferServiceCall = [] ∧
    (buildTransfer submission_id (some s) (some d) op.src_dir op.dest_dir
        files).items =
      files.map (fun file =>
        { source_path := os_path_join op.src_dir file,
          destination_path := os_path_join op.dest_dir file }) := by
  refine ⟨?_, ?_, buildTransfer_items _ _ _ _ _ _⟩
  · rcases files with _ | ⟨f0, fs0⟩
    · exact absurd rfl hne
    · simp [TransferOperation.start_transfer, hc, hf, hapi, h1, h2, h3, h4]
  · have htr := get_api_trace_no_service auth c
    rw [hapi] at htr
    exact htr

/-- Closed instance of start_transfer_sequence: over a configuration
with a cached client and files a.txt and b.txt, the submission
succeeds. -/
theorem start_transfer_sequence_witness :
    (opFix.start_transfer authNone gFix (some "ep-src") (some "ep-dst")).1 =
      Except.ok () := by
  have h := (start_transfer_sequence authNone gFix opFix cfgCached cfgCached
    apiFix "ep-src" "ep-dst" ["a.txt", "b.txt"] [] "sub-1" "task-1"
    rfl rfl (by simp) rfl rfl rfl rfl rfl).1
  rw [h]

/-- C4 (amended): for every transfer operation over a Configuration
whose file list is empty or None, start_transfer with a supplied
(non-None) destination raises TransferException before any remote call,
for every source argument.  (With dest omitted the proc_endpoint
AttributeError fires first; see the counterexample and C10.) -/
theorem start_transfer_empty_files_raises (auth : Authenticator)
    (g : GlobusApi) (op : TransferOperation) (c : Configuration)
    (src : Option String) (d : String) (hc : op.config = some c)
    (hf : op.file_list = none ∨ op.file_list = some []) :
    op.start_transfer auth g src (some d) =
      (Except.error (PyError.transferException "No files specified for transfer"),
       op, []) := by
  rcases src with _ | s <;> rcases hf with hf | hf <;>
    simp [TransferOperation.start_transfer, hc, hf, getattr_src_endpoint]

/-- Closed instance of start_transfer_empty_files_raises: empty file
list and a supplied destination. -/
theorem start_transfer_empty_files_raises_witness :
    (TransferOperation.init (some cfgFix) "/" "/" (some [])).start_transfer
        authNone gFix none (some "ep-dst") =
      (Except.error (PyError.transferException "No files specified for transfer"),
       TransferOperation.init (some cfgFix) "/" "/" (some []), []) :=
  start_transfer_empty_files_raises authNone gFix
    (TransferOperation.init (some cfgFix) "/" "/" (some [])) cfgFix none
    "ep-dst" rfl (Or.inr rfl)

/-- Counterexample to C4 as stated: with an empty file list but the
destination argument omitted, start_transfer fails with AttributeError
for proc_endpoint, not with TransferException, because the destination
defaulting runs before the empty-file-list check. -/
theorem start_transfer_empty_files_counterexample :
    (TransferOperation.init (some cfgFix) "/" "/" (some [])).start_transfer
        authNone gFix (some "ep-src") none =
      (Except.error (PyError.attributeError "proc_endpoint"),
       TransferOperation.init (some cfgFix) "/" "/" (some []), []) ∧
    ((TransferOperation.init (some cfgFix) "/" "/" (some [])).start_transfer
        authNone gFix (some "ep-src") none).1 ≠
      Except.error (PyError.transferException "No files specified for transfer") := by
  refine ⟨rfl, ?_⟩
  have h0 : ((TransferOperation.init (some cfgFix) "/" "/"
      (some [])).start_transfer authNone gFix (some "ep-src") none).1 =
      Except.error (PyError.attributeError "proc_endpoint") := rfl
  rw [h0]
  intro hcontra
  injection hcontra with h2
  injection h2

/-- C10: for every transfer operation over a Configuration, calling
start_transfer with the destination omitted fails with AttributeError
for proc_endpoint — an attribute the Configuration constructor never
defines (it defines proc_dir) — before the empty-file-list check and
with no remote call, for every source argument and file list. -/
theorem start_transfer_missing_proc_endpoint (auth : Authenticator)
    (g : GlobusApi) (op : TransferOperation) (c : Configuration)
    (src : Option String) (hc : op.config = some c) :
    op.start_transfer auth g src none =
      (Except.error (PyError.attributeError "proc_endpoint"), op, []) ∧
    c.getattr "proc_endpoint" =
      Except.error (PyError.attributeError "proc_endpoint") ∧
    c.getattr "proc_dir" = Except.ok c.proc_dir := by
  refine ⟨?_, rfl, rfl⟩
  rcases src with _ | s <;>
    simp [TransferOperation.start_transfer, hc, getattr_src_endpoint,
      getattr_proc_endpoint]

/-- Closed instance of start_transfer_missing_proc_endpoint: even with a
non-empty file list, omitting dest yields the AttributeError. -/
theorem start_transfer_missing_proc_endpoint_witness :
    (opFix.start_transfer authNone gFix (some "ep-src") none).1 =
      Except.error (PyError.attributeError "proc_endpoint") := by
  have h := (start_transfer_missing_proc_endpoint authNone gFix opFix
    cfgCached (some "ep-src") rfl).1
  rw [h]

/-- Case analysis of start_transfer: either it succeeds, or the
operation's task id is unchanged and any service error in the outcome is
the verbatim error of one of the remote calls (authenticator, endpoint
activation, submission-id request or descriptor submission). -/
theorem start_transfer_cases (auth : Authenticator) (g : GlobusApi)
    (op : TransferOperation) (src dest : Option String) :
    (op.start_transfer auth g src dest).1 = Except.ok () ∨
    ((op.start_transfer auth g src dest).2.1.go_task_id = op.go_task_id ∧
     ∀ m, (op.start_transfer auth g src dest).1 =
         Except.error (PyError.serviceError m) →
       (∃ u p, auth u p = Except.error m) ∨
       (∃ a ep, g.endpoint_autoactivate a ep = Except.error m) ∨
       (∃ a, g.transfer_submission_id a = Except.error m) ∨
       (∃ a t, g.transfer a t = Except.error m)) := by
  unfold TransferOperation.start_transfer
  split
  · rename_i e1 heq
    right
    refine ⟨rfl, ?_⟩
    intro m hm
    injection hm with hm2
    subst hm2
    exfalso
    rcases src with _ | s
    · simp at heq
      rcases h2 : op.config with _ | c
      · rw [h2] at heq
        simp at heq
      · rw [h2] at heq
        simp [getattr_src_endpoint] at heq
    · simp at heq
  · rename_i src1 heq1
    split
    · rename_i e1 heq
      right
      refine ⟨rfl, ?_⟩
      intro m hm
      injection hm with hm2
      subst hm2
      exfalso
      rcases dest with _ | d
      · simp at heq
        rcases h2 : op.config with _ | c
        · rw [h2] at heq
          simp at heq
        · rw [h2] at heq
          simp [getattr_proc_endpoint] at heq
      · simp at heq
    · rename_i dest1 heq2
      split
      · right
        refine ⟨rfl, ?_⟩
        intro m hm
        injection hm with hm2
        injection hm2
      · split
        · right
          refine ⟨rfl, ?_⟩
          intro m hm
          injection hm with hm2
          injection hm2
        · split
          · right
            refine ⟨rfl, ?_⟩
            intro m hm
            injection hm with hm2
            injection hm2
          · rename_i c heqc
            split
            · rename_i e1 tr1 heq3
              right
              refine ⟨rfl, ?_⟩
              intro m hm
              injection hm with hm2
              subst hm2
              rcases get_api_error_kinds auth c _ _ heq3 with
                ⟨msg, hmsg⟩ | ⟨u, p, m2, hm2, hauth⟩
              · injection hmsg
              · injection hm2 with hm3
                subst hm3
                exact Or.inl ⟨u, p, hauth⟩
            · rename_i a c1 tr1 heq3
              split
              · rename_i m0 heq4
                right
                refine ⟨rfl, ?_⟩
                intro m hm
                injection hm with hm2
                injection hm2 with hm3
                subst hm3
                exact Or.inr (Or.inl ⟨a, src1, heq4⟩)
              · split
                · rename_i m0 heq5
                  right
                  refine ⟨rfl, ?_⟩
                  intro m hm
                  injection hm with hm2
                  injection hm2 with hm3
                  subst hm3
                  exact Or.inr (Or.inl ⟨a, dest1, heq5⟩)
                · split
                  · rename_i m0 heq6
                    right
                    refine ⟨rfl, ?_⟩
                    intro m hm
                    injection hm with hm2
                    injection hm2 with hm3
                    subst hm3
                    exact Or.inr (Or.inr (Or.inl ⟨a, heq6⟩))
                  · rename_i sid heq6
                    split
                    · rename_i m0 heq7
                      right
                      refine ⟨rfl, ?_⟩
                      intro m hm
                      injection hm with hm2
                      injection hm2 with hm3
                      subst hm3
                      exact Or.inr (Or.inr (Or.inr ⟨a, _, heq7⟩))
                    · left
                      rfl

/-- C8: when start_transfer fails at any step, the call aborts with the
operation's stored task id unchanged, and if the failure is a service
error then its message is the verbatim error of one of the remote calls:
the authenticator, an endpoint activation, the submission-id request or
the descriptor submission. -/
theorem start_transfer_failure_preserves (auth : Authenticator)
    (g : GlobusApi) (op : TransferOperation) (src dest : Option String)
    (e : PyError) (op1 : TransferOperation) (tr : List ExtCall)
    (h : op.start_transfer auth g src dest = (Except.error e, op1, tr)) :
    op1.go_task_id = op.go_task_id ∧
    ∀ m, e = PyError.serviceError m →
      (∃ u p, auth u p = Except.error m) ∨
      (∃ a ep, g.endpoint_autoactivate a ep = Except.error m) ∨
      (∃ a, g.transfer_submission_id a = Except.error m) ∨
      (∃ a t, g.transfer a t = Except.error m) := by
  rcases start_transfer_cases auth g op src dest with hok | ⟨hgo, hsvc⟩
  · rw [h] at hok
    simp at hok
  · constructor
    · rw [h] at hgo
      exact hgo
    · intro m hm
      apply hsvc
      rw [h, hm]

/-- Closed instance of start_transfer_failure_preserves: when endpoint
activation fails, the operation's task id is left untouched. -/
theorem start_transfer_failure_preserves_witness :
    (opFailFix.start_transfer authNone gFailActivate (some "ep-src")
        (some "ep-dst")).2.1.go_task_id = opFailFix.go_task_id :=
  (start_transfer_failure_preserves authNone gFailActivate opFailFix
    (some "ep-src") (some "ep-dst") (PyError.serviceError "endpoint down")
    opFailFix [ExtCall.endpointAutoactivate (some "ep-src")] rfl).1

/-- C7: transfer_status with no task id raises TransferException at once
with no remote call; with a task id set it queries the transfer service
for the status field only and returns that field's value verbatim. -/
theorem transfer_status_spec (auth : Authenticator) (g : GlobusApi)
    (op : TransferOperation) :
    (op.go_task_id = none →
      op.transfer_status auth g =
        (Except.error (PyError.transferException "No task information available."),
         op, [])) ∧
    (∀ task_id c a c1 tr status,
      op.go_task_id = some task_id → op.config = some c →
      c.get_api auth = (Except.ok (a, c1), tr) →
      g.task a task_id "status" = Except.ok status →
      op.transfer_status auth g =
        (Except.ok status, { op with config := some c1 },
         tr ++ [ExtCall.taskQuery task_id "status"])) := by
  constructor
  · intro h
    simp [TransferOperation.transfer_status, h]
  · intro task_id c a c1 tr status h1 h2 h3 h4
    simp [TransferOperation.transfer_status, h1, h2, h3, h4]

/-- Closed instance of transfer_status_spec: a recorded task id yields
the service's literal status value over one status-field query. -/
theorem transfer_status_spec_witness :
    opStatFix.transfer_status authNone gFix =
      (Except.ok "ACTIVE", opStatFix, [ExtCall.taskQuery "task-9" "status"]) :=
  (transfer_status_spec authNone gFix opStatFix).2 "task-9" cfgCached apiFix
    cfgCached [] "ACTIVE" rfl rfl rfl rfl

/-- Counterexample to C5 as stated: an ingest operation whose
configuration and bag name are both present but whose can_ingest is
false, because the configuration's proc_dir is unset — the predicate is
not insensitive to the directory settings. -/
theorem can_ingest_counterexample :
    op5.config.isSome = true ∧ op5.bagname.isSome = true ∧
    op5.can_ingest = false :=
  ⟨rfl, rfl, rfl⟩

/-- C5 (amended): can_ingest is true iff a Configuration is present
whose proc_dir, ingest_dir and dip_dir are set, whose aip_dir is set
whenever needs_preservation holds, and a bag name is present.  A pure
predicate on local state. -/
theorem can_ingest_iff (op : IngestOperation) :
    op.can_ingest = true ↔
      ∃ c, op.config = some c ∧ c.proc_dir ≠ none ∧ c.ingest_dir ≠ none ∧
        c.dip_dir ≠ none ∧
        (c.needs_preservation = true → c.aip_dir ≠ none) ∧
        op.bagname ≠ none := by
  rcases hc : op.config with _ | c
  · simp [IngestOperation.can_ingest, hc]
  · simp only [IngestOperation.can_ingest, hc, Option.some.injEq]
    by_cases h1 : c.proc_dir = none <;> by_cases h2 : c.ingest_dir = none <;>
      by_cases h3 : c.dip_dir = none <;> by_cases h5 : op.bagname = none <;>
      by_cases h4 : c.needs_preservation = true <;>
      by_cases h6 : c.aip_dir = none <;>
      simp [h1, h2, h3, h4, h5, h6]

/-- Closed instance of can_ingest_iff: with every required field set,
can_ingest holds. -/
theorem can_ingest_iff_witness :
    ({ config := some cfgFix, bagname := some "bag-1" }
        : IngestOperation).can_ingest = true :=
  (can_ingest_iff { config := some cfgFix, bagname := some "bag-1" }).mpr
    ⟨cfgFix, rfl, by decide, by decide, by decide, fun _ => by decide,
     by decide⟩

/-- C2 (spec-modelled): on the revised IngestCoordinator, an
argument-free ingest with no bag name stored fails with IngestError and
issues no service call; a call-time bagname overrides and persists as
the stored value, after which canIngest holds and a subsequent
argument-free ingest issues one approval call with directory bag-42 and
the previously-set or default transfer type. -/
theorem ingest_override_persists (svc : IngestService)
    (ic : IngestCoordinator) (hb : ic.bagname = none) :
    (ic.ingest svc none none).1 =
      Except.error (PyError.ingestException "not enough information to ingest bag") ∧
    (ic.ingest svc none none).2.2 = [] ∧
    ∀ c, ic.config = some c →
      ((ic.ingest svc (some "bag-42") none).2.1).bagname = some "bag-42" ∧
      ((ic.ingest svc (some "bag-42") none).2.1).canIngest = true ∧
      (((ic.ingest svc (some "bag-42") none).2.1).ingest svc none none).2.2 =
        [IngestSvcCall.approve c.a_user c.a_api_key "bag-42" ic.ttype] := by
  refine ⟨?_, ?_, ?_⟩
  · rcases hcfg : ic.config with _ | c <;>
      simp [IngestCoordinator.ingest, hcfg, hb]
  · rcases hcfg : ic.config with _ | c <;>
      simp [IngestCoordinator.ingest, hcfg, hb]
  · intro c hc
    refine ⟨?_, ?_, ?_⟩ <;>
      simp [IngestCoordinator.ingest, IngestCoordinator.canIngest, hc, hb]

/-- Closed instance of ingest_override_persists: after
ingest(bagname=bag-42) on a coordinator with no stored bag name, the
argument-free repeat call approves directory bag-42 with the default
type. -/
theorem ingest_override_persists_witness :
    (((icFix.ingest svcFix (some "bag-42") none).2.1).ingest svcFix none
        none).2.2 =
      [IngestSvcCall.approve (some "au") (some "ak") "bag-42" "unzipped bag"] :=
  ((ingest_override_persists svcFix icFix rfl).2.2 cfgFix rfl).2.2

/-- C6 (code bug): the BagOperation constructor discards its metadata
argument (the source assigns an empty mapping instead of the parameter),
so make_bag invokes the packaging capability with the directory and the
EMPTY metadata mapping, not the mapping given at construction — here the
non-empty mapping with key title.  The resulting bag is still returned
and stored as the operation's current bag. -/
theorem make_bag_drops_metadata (pk : Packager) :
    (BagOperation.init "/data/set1" [("title", "Set1")] none).metadata = [] ∧
    ((BagOperation.init "/data/set1" [("title", "Set1")] none).make_bag pk).1 =
      pk "/data/set1" [] ∧
    ((BagOperation.init "/data/set1" [("title", "Set1")] none).make_bag
        pk).2.bag = some (pk "/data/set1" []) ∧
    ([("title", "Set1")] : List (String × String)) ≠ [] :=
  ⟨rfl, rfl, rfl, by simp⟩

end CcRdm
